import Mathlib

/-!
# Verification of the Drone_data georeferencing and trajectory-smoothing core

Shallow embedding (over `ℝ`) of the algorithmic core of the repository:

* `do_georeference` and the batch loop `georeference_images`
  (src/georeference_images.py),
* `temporal_smooth_kalman` (src/kalman_smoother.py),
* `calc_yaw_from_ellipse` (src/yaw_from_glitter.py).

The helper module `georef_tools` (pixel-angle grid, coordinate rotation,
metre-offset to lon/lat conversion, reference points) is imported by the
source but its file is not part of the repository snapshot; those pieces
are modelled from the specification and are marked as such in their doc
comments.
-/

namespace DroneData

/-- `np.deg2rad` / `np.radians`: degrees to radians. -/
noncomputable def deg2rad (x : ℝ) : ℝ := x * (Real.pi / 180)

/-- Python's float modulo `a % b` (for `b > 0`): `a - b * ⌊a / b⌋`,
the representative in `[0, b)`. -/
noncomputable def pyMod (a b : ℝ) : ℝ := a - b * ⌊a / b⌋

/-- Net image orientation derived from platform attitude and camera mount
(spec `NetOrientation`). -/
structure NetOrientation where
  totalPitch : ℝ
  totalRoll : ℝ
  totalYaw : ℝ

/-- The attitude composition performed at the top of `do_georeference`
(src/georeference_images.py lines 87–90):

    totalImagePitch = cameraPitch + np.cos(np.deg2rad(cameraYaw))*dronePitch
                      - np.sin(np.deg2rad(cameraYaw))*droneRoll
    totalImageRoll  = np.sin(np.deg2rad(cameraYaw))*dronePitch
                      + np.cos(np.deg2rad(cameraYaw))*droneRoll
    totalImageYaw   = (droneYaw + cameraYaw) % 360.0
-/
noncomputable def composeAttitude (droneRoll dronePitch droneYaw cameraPitch cameraYaw : ℝ) :
    NetOrientation :=
  { totalPitch := cameraPitch + Real.cos (deg2rad cameraYaw) * dronePitch
      - Real.sin (deg2rad cameraYaw) * droneRoll
    totalRoll := Real.sin (deg2rad cameraYaw) * dronePitch
      + Real.cos (deg2rad cameraYaw) * droneRoll
    totalYaw := pyMod (droneYaw + cameraYaw) 360 }

/-! ## Kalman trajectory smoother (src/kalman_smoother.py) -/

/-- `LAT_TO_M = 111132.92`: metres per degree latitude. -/
noncomputable def LAT_TO_M : ℝ := 111132.92

/-- `LON_TO_M = 111319.9`: metres per degree longitude at the equator. -/
noncomputable def LON_TO_M : ℝ := 111319.9

/-- One input row of the trajectory table, restricted to the columns the
smoothing algorithm reads. -/
structure TrajRow where
  droneTime_MS : ℝ
  GPS_Longitude : ℝ
  GPS_Latitude : ℝ

/-- One output row of `temporal_smooth_kalman`, restricted to the smoothed
position, the `dt` column and the `Speed_m_s` column. `Speed_m_s = none`
models the seeded `np.nan` of the first row. -/
structure SmoothedRow where
  GPS_Longitude : ℝ
  GPS_Latitude : ℝ
  dt : ℝ
  Speed_m_s : Option ℝ

/-- `df['GPS_Latitude'].mean()` over the trajectory. -/
noncomputable def kalmanMeanLat (rows : List TrajRow) : ℝ :=
  ((rows.map TrajRow.GPS_Latitude).sum) / (rows.length : ℝ)

/-- `lon_to_m_at_lat = LON_TO_M * np.cos(np.radians(lat))`: degree-to-metre
factor for longitude at a given latitude. -/
noncomputable def lonToMetresFactor (lat : ℝ) : ℝ := LON_TO_M * Real.cos (deg2rad lat)

/-- Forward conversion `x_m = (GPS_Longitude - origin_lon) * lon_to_m_at_lat`
(src/kalman_smoother.py line 40); same shape serves latitude with
`LAT_TO_M`. -/
def lonLatToMetres (v origin factor : ℝ) : ℝ := (v - origin) * factor

/-- Inverse conversion
`Kalman_GPS_Longitude = Kalman_x_m / lon_to_m_at_lat + origin_lon`
(src/kalman_smoother.py line 107); same shape serves latitude. -/
noncomputable def metresToLonLat (m origin factor : ℝ) : ℝ := m / factor + origin

/-- `pandas.Series.diff` against a running previous element. -/
def diffFrom (p : ℝ) : List ℝ → List ℝ
  | [] => []
  | y :: ys => (y - p) :: diffFrom y ys

/-- `df['droneTime_MS'].diff().fillna(0)` applied to the seconds column:
first difference is filled with 0. -/
def dtsOf : List ℝ → List ℝ
  | [] => []
  | t :: rest => 0 :: diffFrom t rest

/-- The `filterpy` Kalman filter state: estimate `x = [x, y, vx, vy]` and
covariance `P`. -/
structure KFState where
  x : Fin 4 → ℝ
  P : Matrix (Fin 4) (Fin 4) ℝ

/-- `kf.H`: measurement matrix mapping state to measured `[x, y]`. -/
def kalmanH : Matrix (Fin 2) (Fin 4) ℝ :=
  Matrix.of ![![1, 0, 0, 0], ![0, 1, 0, 0]]

/-- `kf.R = diag(3², 3²)`: measurement-noise covariance (GPS std 3 m). -/
def kalmanR : Matrix (Fin 2) (Fin 2) ℝ :=
  Matrix.of ![![9, 0], ![0, 9]]

/-- `kf.P = diag(10², 10², 5², 5²)`: initial covariance. -/
def kalmanP0 : Matrix (Fin 4) (Fin 4) ℝ :=
  Matrix.of ![![100, 0, 0, 0], ![0, 100, 0, 0], ![0, 0, 25, 0], ![0, 0, 0, 25]]

/-- `kf.F` for elapsed time `dt`: constant-velocity state transition. -/
def kalmanF (dt : ℝ) : Matrix (Fin 4) (Fin 4) ℝ :=
  Matrix.of ![![1, 0, dt, 0], ![0, 1, 0, dt], ![0, 0, 1, 0], ![0, 0, 0, 1]]

/-- `Q_discrete_white_noise(dim=2, dt=dt, var=q_std**2, block_size=2)` from
`filterpy.common`: `block_diag(Q2, Q2) * var` with
`Q2 = [[dt⁴/4, dt³/2], [dt³/2, dt²]]`. -/
noncomputable def kalmanQ (dt varq : ℝ) : Matrix (Fin 4) (Fin 4) ℝ :=
  Matrix.of ![![dt^4 / 4 * varq, dt^3 / 2 * varq, 0, 0],
              ![dt^3 / 2 * varq, dt^2 * varq, 0, 0],
              ![0, 0, dt^4 / 4 * varq, dt^3 / 2 * varq],
              ![0, 0, dt^3 / 2 * varq, dt^2 * varq]]

/-- One loop iteration for `i > 0`: set `kf.F` and `kf.Q` from `dt`, then
`kf.predict()` followed by `kf.update(z)` (filterpy semantics, Joseph-form
covariance update). -/
noncomputable def kfStep (s : KFState) (dt zx zy : ℝ) : KFState :=
  let F := kalmanF dt
  let Q := kalmanQ dt ((0.1 : ℝ)^2)
  let xp := F.mulVec s.x
  let Pp := F * s.P * F.transpose + Q
  let z : Fin 2 → ℝ := ![zx, zy]
  let y := z - kalmanH.mulVec xp
  let PHT := Pp * kalmanH.transpose
  let S := kalmanH * PHT + kalmanR
  let K := PHT * S⁻¹
  let xn := xp + K.mulVec y
  let IKH := (1 : Matrix (Fin 4) (Fin 4) ℝ) - K * kalmanH
  let Pn := IKH * Pp * IKH.transpose + K * kalmanR * K.transpose
  ⟨xn, Pn⟩

/-- The filter loop from the second sample onward: each element of the input
is `(dt, x_m, y_m)`; the output records the smoothed position and the speed
`√(vx² + vy²)` derived from the smoothed velocity. -/
noncomputable def kalmanFold (s : KFState) : List (ℝ × ℝ × ℝ) → List (ℝ × ℝ × ℝ)
  | [] => []
  | (dt, zx, zy) :: rest =>
      let s' := kfStep s dt zx zy
      (s'.x 0, s'.x 1, Real.sqrt ((s'.x 2)^2 + (s'.x 3)^2)) :: kalmanFold s' rest

/-- Initial state `kf.x = [x_m[0], y_m[0], 0, 0]`: first local-plane
measurement with zero velocity, with covariance `kalmanP0`. -/
noncomputable def kalmanSeed (r : TrajRow) (rs : List TrajRow) : KFState :=
  ⟨![lonLatToMetres r.GPS_Longitude r.GPS_Longitude
        (lonToMetresFactor (kalmanMeanLat (r :: rs))),
     lonLatToMetres r.GPS_Latitude r.GPS_Latitude LAT_TO_M, 0, 0], kalmanP0⟩

/-- The `(dt, x_m, y_m)` triples fed to the loop from the second sample on. -/
noncomputable def kalmanTriples (r : TrajRow) (rs : List TrajRow) : List (ℝ × ℝ × ℝ) :=
  let f := lonToMetresFactor (kalmanMeanLat (r :: rs))
  let xms := rs.map fun q => lonLatToMetres q.GPS_Longitude r.GPS_Longitude f
  let yms := rs.map fun q => lonLatToMetres q.GPS_Latitude r.GPS_Latitude LAT_TO_M
  let dts := diffFrom (r.droneTime_MS / 1000) (rs.map fun q => q.droneTime_MS / 1000)
  dts.zip (xms.zip yms)

/-- Body of `temporal_smooth_kalman` on a non-empty table with first row `r`:
local-plane conversion anchored at `r`, the filter loop (first sample copied
through with `Speed_m_s = NaN`), and conversion back to lon/lat. -/
noncomputable def kalmanBody (r : TrajRow) (rs : List TrajRow) : List SmoothedRow :=
  let f := lonToMetresFactor (kalmanMeanLat (r :: rs))
  let x0 := lonLatToMetres r.GPS_Longitude r.GPS_Longitude f
  let y0 := lonLatToMetres r.GPS_Latitude r.GPS_Latitude LAT_TO_M
  let sm : List (ℝ × ℝ × Option ℝ) :=
    (x0, y0, none) ::
      (kalmanFold (kalmanSeed r rs) (kalmanTriples r rs)).map
        fun t => (t.1, t.2.1, some t.2.2)
  let dts := dtsOf ((r :: rs).map fun q => q.droneTime_MS / 1000)
  List.zipWith
    (fun (p : ℝ × ℝ × Option ℝ) (dt : ℝ) =>
      { GPS_Longitude := metresToLonLat p.1 r.GPS_Longitude f
        GPS_Latitude := metresToLonLat p.2.1 r.GPS_Latitude LAT_TO_M
        dt := dt
        Speed_m_s := p.2.2 })
    sm dts

/-- `temporal_smooth_kalman` (src/kalman_smoother.py), reduced to the columns
the algorithm computes; `none` models the crash of `df.iloc[0]` on an empty
table. The function performs no monotonicity check on `droneTime_MS`. -/
noncomputable def temporal_smooth_kalman (rows : List TrajRow) : Option (List SmoothedRow) :=
  match rows with
  | [] => none
  | r :: rs => some (kalmanBody r rs)

/-! ## Per-pixel projection (src/georeference_images.py, `do_georeference`) -/

/-- Modelled from the spec: `georef_tools.calculate_image_pixel_angles` is
imported by src/georeference_images.py but its module is not in the
repository snapshot. Spec 4.2 step 1: angular offset of each pixel from the
image centre along one axis, with the midpoint convention fixed so the
centre pixel has angular offset 0 (`middle=True`). -/
noncomputable def pixelAngle (n : ℕ) (fov : ℝ) (i : ℕ) : ℝ :=
  -(fov / 2) + ((i : ℝ) + 1 / 2) * (fov / n)

/-- Modelled from the spec: `georef_tools.rotate_coordinate` is imported by
src/georeference_images.py but its module is not in the repository snapshot.
Spec 4.2 step 4: standard 2-D rotation of the ground-distance pair by the
(degree-valued) total yaw. -/
noncomputable def rotate_coordinate (x y yawDeg : ℝ) : ℝ × ℝ :=
  (x * Real.cos (deg2rad yawDeg) - y * Real.sin (deg2rad yawDeg),
   x * Real.sin (deg2rad yawDeg) + y * Real.cos (deg2rad yawDeg))

/-- Modelled from the spec: `georef_tools.lonlat_add_metres` is imported by
src/georeference_images.py but its module is not in the repository snapshot.
Spec 4.3: local-tangent-plane conversion of metre offsets plus an origin to
longitude/latitude with factors `111319.9·cos(lat)` and `111132.92`. -/
noncomputable def lonlat_add_metres (x y olon olat : ℝ) : ℝ × ℝ :=
  (olon + x / (LON_TO_M * Real.cos (deg2rad olat)), olat + y / LAT_TO_M)

/-- Spec 4.2 steps 1–4 evaluated at a single angular offset `(ax, ay)` from
the image centre: used for the five reference points. -/
noncomputable def projectPoint (olon olat alt : ℝ) (o : NetOrientation) (ax ay : ℝ) : ℝ × ℝ :=
  let xd := alt * Real.tan (deg2rad (ax + o.totalRoll))
  let yd := alt * Real.tan (deg2rad (ay + o.totalPitch))
  let r := rotate_coordinate xd yd o.totalYaw
  lonlat_add_metres r.1 r.2 olon olat

/-- Modelled from the spec: `georef_tools.find_image_reference_lonlats` is
imported by src/georeference_images.py but its module is not in the
repository snapshot. Spec 4.2 step 5: the same steps 1–4 evaluated at the
centre and the four image corners. -/
noncomputable def find_image_reference_lonlats (olon olat alt : ℝ) (o : NetOrientation)
    (hFov aspect : ℝ) : List (ℝ × ℝ) :=
  let vFov := hFov / aspect
  [projectPoint olon olat alt o 0 0,
   projectPoint olon olat alt o (-(hFov / 2)) (vFov / 2),
   projectPoint olon olat alt o (hFov / 2) (vFov / 2),
   projectPoint olon olat alt o (-(hFov / 2)) (-(vFov / 2)),
   projectPoint olon olat alt o (hFov / 2) (-(vFov / 2))]

/-- Result of one `do_georeference` call: per-pixel lon/lat grids (as
functions of the pixel indices) and the five reference points. -/
structure GeoFrame where
  lons : ℕ → ℕ → ℝ
  lats : ℕ → ℕ → ℝ
  refPoints : List (ℝ × ℝ)

/-- `do_georeference` (src/georeference_images.py lines 86–114): attitude
composition, per-pixel angles shifted by total roll/pitch, flat-plane
distances `altitude · tan(radians(angle))`, rotation by total yaw,
conversion to lon/lat at the platform origin, and a final vertical flip
(`np.flipud`) of both grids along the first (x-index) axis. No check,
warning, clamp or exclusion is applied to any pixel. -/
noncomputable def do_georeference (droneLon droneLat droneAltitude droneRoll dronePitch
    droneYaw cameraPitch cameraYaw : ℝ) (nPixelsX nPixelsY : ℕ) (hFov aspect : ℝ) :
    GeoFrame :=
  let o := composeAttitude droneRoll dronePitch droneYaw cameraPitch cameraYaw
  let vFov := hFov / aspect
  let xD := fun i => droneAltitude * Real.tan (deg2rad (pixelAngle nPixelsX hFov i + o.totalRoll))
  let yD := fun j => droneAltitude * Real.tan (deg2rad (pixelAngle nPixelsY vFov j + o.totalPitch))
  let rot := fun i j => rotate_coordinate (xD i) (yD j) o.totalYaw
  let ll := fun i j => lonlat_add_metres (rot i j).1 (rot i j).2 droneLon droneLat
  { lons := fun i j => (ll (nPixelsX - 1 - i) j).1
    lats := fun i j => (ll (nPixelsX - 1 - i) j).2
    refPoints := find_image_reference_lonlats droneLon droneLat droneAltitude o hFov aspect }

/-! ## Glitter yaw estimator (src/yaw_from_glitter.py) -/

/-- A Python float as stored in a metadata cell: finite, `nan`, or a signed
infinity; `np.isfinite` is the `isFinite` projection. -/
inductive PyFloat where
  | fin : ℝ → PyFloat
  | nan : PyFloat
  | inf : PyFloat
  | ninf : PyFloat

/-- `np.isfinite`. -/
def PyFloat.isFinite : PyFloat → Bool
  | fin _ => true
  | _ => false

/-- Abstract interface to the OpenCV operations used by
`calc_yaw_from_ellipse`. The image and contour-point types are opaque
parameters and the library operations are fields, so every theorem about the
estimator holds for any implementation of them: `cvtColorGray` is
`cv2.cvtColor(..., COLOR_BGR2GRAY)`, `maxVal` is `np.max` of the 8-bit
image, `gaussianBlur` is `cv2.GaussianBlur(..., (201,201), 0)`, and
`maskEdgeContours` combines the thresholded mask, `cv2.Canny` and
`cv2.findContours` (as a function of the blurred image and the scaled
threshold); `fitEllipseAngle` is the major-axis orientation `ellipse[2]` of
`cv2.fitEllipse`. -/
structure CVEnv (Img GImg Pt : Type) where
  cvtColorGray : Img → GImg
  maxVal : GImg → ℕ
  gaussianBlur : GImg → GImg
  maskEdgeContours : GImg → ℝ → List (List Pt)
  fitEllipseAngle : List Pt → ℝ

/-- `contourLengths.argmax()` followed by `contours[contourIndex]`: the first
contour with the greatest number of boundary points (`np.argmax` returns the
first index of the maximum). -/
def selectLongest {α : Type} : List (List α) → Option (List α)
  | [] => none
  | c :: cs => some (cs.foldl (fun best d => if best.length < d.length then d else best) c)

/-- `calc_yaw_from_ellipse` (src/yaw_from_glitter.py lines 14–68):
`none` when the image cannot be read, when the maximum grayscale intensity is
below the absolute floor 100, or when no contours are found; otherwise
`yaw = azimuth - ellipseAngle` for the ellipse fitted to the contour with the
most boundary points. `imreadResult` is the value of `cv2.imread(imagePath)`
and `azimuth` the (pure) `pysolar.get_azimuth(lat, lon, date)` value. -/
def calc_yaw_from_ellipse {Img GImg Pt : Type} (env : CVEnv Img GImg Pt)
    (imreadResult : Option Img) (azimuth threshold : ℝ) : Option ℝ :=
  match imreadResult with
  | none => none
  | some img =>
    let gray := env.cvtColorGray img
    if env.maxVal gray < 100 then none
    else
      let scaledThreshold := threshold * (env.maxVal gray : ℝ)
      let contours := env.maskEdgeContours (env.gaussianBlur gray) scaledThreshold
      match selectLongest contours with
      | none => none
      | some points => some (azimuth - env.fitEllipseAngle points)

/-- The caller's fallback in src/georeference_images.py: the glitter result
overrides the telemetry yaw only when it is not `None`. -/
def callerYaw (gres : Option ℝ) (metadataYaw : PyFloat) : PyFloat :=
  match gres with
  | some gy => PyFloat.fin gy
  | none => metadataYaw

/-! ## Batch loop (src/georeference_images.py, `georeference_images`) -/

/-- One row of the image-metadata table. A `none` required field models a
missing column (`KeyError` on read). `DateTimeOriginal` is read with `.get`
and so is optional. -/
structure ImageRow where
  filename : Option String
  ATT_Pitch : Option PyFloat
  ATT_Roll : Option PyFloat
  ATT_Yaw : Option PyFloat
  GPS_Longitude : Option PyFloat
  GPS_Latitude : Option PyFloat
  droneTime_MS : Option PyFloat
  GPS_Altitude : Option PyFloat
  DateTimeOriginal : Option String

/-- The `try`-block of the loop body: all eight required columns, or
`KeyError` (`none`). -/
def requiredKeys (r : ImageRow) :
    Option (String × PyFloat × PyFloat × PyFloat × PyFloat × PyFloat × PyFloat × PyFloat) :=
  r.filename.bind fun fn =>
  r.ATT_Pitch.bind fun pitch =>
  r.ATT_Roll.bind fun roll =>
  r.ATT_Yaw.bind fun yaw =>
  r.GPS_Longitude.bind fun lon =>
  r.GPS_Latitude.bind fun lat =>
  r.droneTime_MS.bind fun t =>
  r.GPS_Altitude.map fun alt => (fn, pitch, roll, yaw, lon, lat, t, alt)

/-- Observable per-row actions of the batch loop. -/
inductive BatchEffect where
  | ranGlitter (filename : String)
  | computedGeoreference (filename : String) (usedYaw : PyFloat)
  | wroteNetCDF (outputPath : String)
  | wroteGeoTiff (outputPath : String)

/-- Configuration and environment of one `georeference_images` call. The
`hasNetCDF`/`hasGDAL` flags are the module-level library toggles;
`imageExists` is `os.path.exists` on image paths, `imread` is `cv2.imread`,
and `solarAzimuth` abstracts date parsing plus `pysolar.get_azimuth`. -/
structure BatchConfig (Img GImg Pt : Type) where
  outputDirectory : String
  imageDirectory : String
  suffix : String
  cameraPitch : ℝ
  cameraYaw : ℝ
  enableGlitter : Bool
  glitterThreshold : ℝ
  hasNetCDF : Bool
  hasGDAL : Bool
  env : CVEnv Img GImg Pt
  imageExists : String → Bool
  imread : String → Option Img
  solarAzimuth : String → PyFloat → PyFloat → ℝ

/-- `outputPathNC = path.join(outputDirectory, imageFilename+suffix+".nc")`. -/
def ncPath {Img GImg Pt : Type} (cfg : BatchConfig Img GImg Pt) (fn : String) : String :=
  cfg.outputDirectory ++ "/" ++ fn ++ cfg.suffix ++ ".nc"

/-- The GeoTIFF output path `imageFilename[:-4]+suffix+".tif"` in the output
directory. -/
def tifPath {Img GImg Pt : Type} (cfg : BatchConfig Img GImg Pt) (fn : String) : String :=
  cfg.outputDirectory ++ "/" ++ (fn.dropRight 4) ++ cfg.suffix ++ ".tif"

/-- One iteration of the loop in `georeference_images`
(src/georeference_images.py lines 156–246): `KeyError` → skip; existing
NetCDF output path → skip; non-finite altitude → skip; otherwise the
optional glitter yaw correction, the core `do_georeference` call with the
possibly overridden yaw, and the NetCDF/GeoTIFF writes according to the
library flags. Returns the row's effects and the updated set of existing
paths. -/
def processRow {Img GImg Pt : Type} (cfg : BatchConfig Img GImg Pt)
    (fs : List String) (r : ImageRow) : List BatchEffect × List String :=
  match requiredKeys r with
  | none => ([], fs)
  | some (fn, _pitch, _roll, yaw, lon, lat, _t, alt) =>
    if ncPath cfg fn ∈ fs then ([], fs)
    else if !alt.isFinite then ([], fs)
    else
      let imagePath := cfg.imageDirectory ++ "/" ++ fn
      let rawTime := r.DateTimeOriginal.getD ""
      let doGlitter := cfg.enableGlitter && !rawTime.isEmpty && cfg.imageExists imagePath
      let gres := calc_yaw_from_ellipse cfg.env (cfg.imread imagePath)
        (cfg.solarAzimuth rawTime lon lat) cfg.glitterThreshold
      let usedYaw := if doGlitter then callerYaw gres yaw else yaw
      let gevents := if doGlitter then [BatchEffect.ranGlitter fn] else []
      let writes :=
        (if cfg.hasNetCDF then [BatchEffect.wroteNetCDF (ncPath cfg fn)] else [])
          ++ (if cfg.hasGDAL then [BatchEffect.wroteGeoTiff (tifPath cfg fn)] else [])
      let newPaths :=
        (if cfg.hasNetCDF then [ncPath cfg fn] else [])
          ++ (if cfg.hasGDAL then [tifPath cfg fn] else [])
      (gevents ++ [BatchEffect.computedGeoreference fn usedYaw] ++ writes, fs ++ newPaths)

/-- The batch loop `georeference_images`: fold of `processRow` over the rows,
threading the set of existing output paths and concatenating the effects. -/
def georeference_images {Img GImg Pt : Type} (cfg : BatchConfig Img GImg Pt)
    (rows : List ImageRow) (fs : List String) : List BatchEffect × List String :=
  match rows with
  | [] => ([], fs)
  | r :: rest =>
      let step := processRow cfg fs r
      let next := georeference_images cfg rest step.2
      (step.1 ++ next.1, next.2)

/-- A trivial concrete instantiation of the OpenCV interface used to
exercise the glitter-estimator theorems on explicit inputs. -/
noncomputable def unitCV : CVEnv Unit Unit Unit where
  cvtColorGray := fun _ => ()
  maxVal := fun _ => 200
  gaussianBlur := fun _ => ()
  maskEdgeContours := fun _ _ => [[()], [(), ()]]
  fitEllipseAngle := fun _ => 30

/-- A concrete batch configuration used to exercise the batch-loop theorems
on explicit inputs. -/
noncomputable def unitBatchConfig : BatchConfig Unit Unit Unit where
  outputDirectory := "out"
  imageDirectory := "img"
  suffix := ""
  cameraPitch := 30
  cameraYaw := 90
  enableGlitter := false
  glitterThreshold := 1/2
  hasNetCDF := true
  hasGDAL := false
  env := unitCV
  imageExists := fun _ => false
  imread := fun _ => none
  solarAzimuth := fun _ _ _ => 0

/-- A metadata row with all required columns present and a finite altitude. -/
noncomputable def sampleRow : ImageRow where
  filename := some "a.jpg"
  ATT_Pitch := some (.fin 1)
  ATT_Roll := some (.fin 2)
  ATT_Yaw := some (.fin 3)
  GPS_Longitude := some (.fin 4)
  GPS_Latitude := some (.fin 5)
  droneTime_MS := some (.fin 6)
  GPS_Altitude := some (.fin 100)
  DateTimeOriginal := none

/-- A row whose `ATT_Pitch` is `NaN` while the altitude is finite. -/
noncomputable def nanPitchRow : ImageRow where
  filename := some "b.jpg"
  ATT_Pitch := some .nan
  ATT_Roll := some (.fin 0)
  ATT_Yaw := some (.fin 0)
  GPS_Longitude := some (.fin 0)
  GPS_Latitude := some (.fin 0)
  droneTime_MS := some (.fin 0)
  GPS_Altitude := some (.fin 100)
  DateTimeOriginal := none

/-- A row whose altitude is `NaN`. -/
noncomputable def nanAltRow : ImageRow where
  filename := some "c.jpg"
  ATT_Pitch := some (.fin 0)
  ATT_Roll := some (.fin 0)
  ATT_Yaw := some (.fin 0)
  GPS_Longitude := some (.fin 0)
  GPS_Latitude := some (.fin 0)
  droneTime_MS := some (.fin 0)
  GPS_Altitude := some .nan
  DateTimeOriginal := none

lemma pyMod_eq_fract (a b : ℝ) (hb : b ≠ 0) : pyMod a b = b * Int.fract (a / b) := by
  unfold pyMod
  rw [Int.fract, mul_sub, mul_div_cancel₀ a hb]

lemma pyMod_nonneg (a b : ℝ) (hb : 0 < b) : 0 ≤ pyMod a b := by
  rw [pyMod_eq_fract a b hb.ne']
  exact mul_nonneg hb.le (Int.fract_nonneg _)

lemma pyMod_lt (a b : ℝ) (hb : 0 < b) : pyMod a b < b := by
  rw [pyMod_eq_fract a b hb.ne']
  calc b * Int.fract (a / b) < b * 1 := by
        exact mul_lt_mul_of_pos_left (Int.fract_lt_one _) hb
    _ = b := mul_one b

lemma pyMod_eq_self (a b : ℝ) (h0 : 0 ≤ a) (h1 : a < b) : pyMod a b = a := by
  have hb : 0 < b := lt_of_le_of_lt h0 h1
  unfold pyMod
  have hfloor : ⌊a / b⌋ = 0 := by
    apply Int.floor_eq_zero_iff.mpr
    constructor
    · exact div_nonneg h0 hb.le
    · rw [div_lt_one hb]; exact h1
  rw [hfloor]
  simp

lemma pyMod_idem (a b : ℝ) (hb : 0 < b) : pyMod (pyMod a b) b = pyMod a b :=
  pyMod_eq_self _ _ (pyMod_nonneg a b hb) (pyMod_lt a b hb)

lemma diffFrom_length (p : ℝ) (l : List ℝ) : (diffFrom p l).length = l.length := by
  induction l generalizing p with
  | nil => rfl
  | cons y ys ih => simp [diffFrom, ih]

lemma kalmanFold_length (s : KFState) (l : List (ℝ × ℝ × ℝ)) :
    (kalmanFold s l).length = l.length := by
  induction l generalizing s with
  | nil => rfl
  | cons t rest ih =>
      obtain ⟨dt, zx, zy⟩ := t
      simp [kalmanFold, ih]

lemma kalmanTriples_length (r : TrajRow) (rs : List TrajRow) :
    (kalmanTriples r rs).length = rs.length := by
  simp [kalmanTriples, diffFrom_length]

lemma kalmanBody_length (r : TrajRow) (rs : List TrajRow) :
    (kalmanBody r rs).length = rs.length + 1 := by
  simp [kalmanBody, dtsOf, diffFrom_length, kalmanFold_length, kalmanTriples_length]

lemma tan_8999999_lower_bound : (401000 : ℝ) < Real.tan (deg2rad 89.9999) := by
  have hpi := Real.pi_pos
  have hδeq : Real.pi / 2 - deg2rad 89.9999 = Real.pi / 1800000 := by
    unfold deg2rad; ring
  have hδpos : (0 : ℝ) < Real.pi / 1800000 := by positivity
  have hδlt : Real.pi / 1800000 < 0.0000018 := by
    have := Real.pi_lt_315
    nlinarith
  have hxpos : (0 : ℝ) < deg2rad 89.9999 := by unfold deg2rad; positivity
  have hxlt : deg2rad 89.9999 < Real.pi / 2 := by
    unfold deg2rad; nlinarith
  have hcos_eq : Real.cos (deg2rad 89.9999) = Real.sin (Real.pi / 1800000) := by
    rw [← Real.sin_pi_div_two_sub, hδeq]
  have hsin_eq : Real.sin (deg2rad 89.9999) = Real.cos (Real.pi / 1800000) := by
    rw [← Real.cos_pi_div_two_sub, hδeq]
  have hcos_pos : 0 < Real.cos (deg2rad 89.9999) :=
    Real.cos_pos_of_mem_Ioo ⟨by linarith, hxlt⟩
  have hcos_lt : Real.cos (deg2rad 89.9999) < 0.0000018 := by
    rw [hcos_eq]
    calc Real.sin (Real.pi / 1800000) ≤ Real.pi / 1800000 := Real.sin_le hδpos.le
      _ < 0.0000018 := hδlt
  have hsin_ge : (0.9 : ℝ) ≤ Real.sin (deg2rad 89.9999) := by
    rw [hsin_eq]
    have h1 : 1 - (Real.pi / 1800000) ^ 2 / 2 ≤ Real.cos (Real.pi / 1800000) :=
      Real.one_sub_sq_div_two_le_cos
    nlinarith
  rw [Real.tan_eq_sin_div_cos, lt_div_iff hcos_pos]
  nlinarith

lemma selectLongest_mem_and_max {α : Type} (c : List α) (cs : List (List α)) :
    (cs.foldl (fun best d => if best.length < d.length then d else best) c) ∈ c :: cs
    ∧ c.length ≤ (cs.foldl (fun best d => if best.length < d.length then d else best) c).length
    ∧ ∀ d ∈ cs, d.length ≤
        (cs.foldl (fun best d => if best.length < d.length then d else best) c).length := by
  induction cs generalizing c with
  | nil =>
      refine ⟨List.mem_cons_self c [], le_refl _, ?_⟩
      intro d hd
      exact absurd hd (List.not_mem_nil d)
  | cons e es ih =>
      simp only [List.foldl_cons]
      by_cases hce : c.length < e.length
      · rw [if_pos hce]
        obtain ⟨hmem, hge, hall⟩ := ih e
        refine ⟨List.mem_cons_of_mem c hmem, le_trans hce.le hge, ?_⟩
        intro d hd
        rcases List.mem_cons.mp hd with h | h
        · exact h ▸ hge
        · exact hall d h
      · rw [if_neg hce]
        obtain ⟨hmem, hge, hall⟩ := ih c
        refine ⟨?_, hge, ?_⟩
        · rcases List.mem_cons.mp hmem with h | h
          · rw [h]; exact List.mem_cons_self c (e :: es)
          · exact List.mem_cons_of_mem c (List.mem_cons_of_mem e h)
        · intro d hd
          rcases List.mem_cons.mp hd with h | h
          · exact h ▸ le_trans (le_of_not_lt hce) hge
          · exact hall d h

lemma processRow_fs_mono {Img GImg Pt : Type} (cfg : BatchConfig Img GImg Pt)
    (fs : List String) (r : ImageRow) : fs ⊆ (processRow cfg fs r).2 := by
  unfold processRow
  cases requiredKeys r with
  | none => exact List.Subset.refl fs
  | some v =>
      obtain ⟨fn, pitch, roll, yaw, lon, lat, t, alt⟩ := v
      by_cases h1 : ncPath cfg fn ∈ fs
      · simp [h1]
      · by_cases h2 : alt.isFinite
        · simp [h1, h2]
        · simp [h1, h2]

lemma georeference_images_fs_mono {Img GImg Pt : Type} (cfg : BatchConfig Img GImg Pt)
    (rows : List ImageRow) (fs : List String) :
    fs ⊆ (georeference_images cfg rows fs).2 := by
  induction rows generalizing fs with
  | nil => exact List.Subset.refl fs
  | cons r rest ih =>
      exact (processRow_fs_mono cfg fs r).trans (ih (processRow cfg fs r).2)

lemma processRow_skip_of_written {Img GImg Pt : Type} (cfg : BatchConfig Img GImg Pt)
    (fs g : List String) (r : ImageRow) (hnc : cfg.hasNetCDF = true)
    (hsub : (processRow cfg fs r).2 ⊆ g) :
    processRow cfg g r = ([], g) := by
  unfold processRow at hsub ⊢
  cases hk : requiredKeys r with
  | none => rfl
  | some v =>
      obtain ⟨fn, pitch, roll, yaw, lon, lat, t, alt⟩ := v
      rw [hk] at hsub
      by_cases h1 : ncPath cfg fn ∈ fs
      · have : ncPath cfg fn ∈ g := by
          simp only [h1, if_pos] at hsub
          exact hsub h1
        simp [this]
      · by_cases h2 : alt.isFinite
        · have : ncPath cfg fn ∈ g := by
            simp only [h1, if_neg, not_false_iff, h2, Bool.not_true, if_false] at hsub
            apply hsub
            simp [hnc, h2]
          simp [this]
        · have h2' : (!alt.isFinite) = true := by simp [h2]
          by_cases h3 : ncPath cfg fn ∈ g
          · simp [h3]
          · simp [h3, h2']

lemma georeference_images_idempotent {Img GImg Pt : Type} (cfg : BatchConfig Img GImg Pt)
    (rows : List ImageRow) (fs g : List String) (hnc : cfg.hasNetCDF = true)
    (hsub : (georeference_images cfg rows fs).2 ⊆ g) :
    georeference_images cfg rows g = ([], g) := by
  induction rows generalizing fs g with
  | nil => rfl
  | cons r rest ih =>
      have hsub' : (georeference_images cfg rest (processRow cfg fs r).2).2 ⊆ g := hsub
      have hfs' : (processRow cfg fs r).2 ⊆ g :=
        List.Subset.trans
          (georeference_images_fs_mono cfg rest (processRow cfg fs r).2) hsub'
      have hrow := processRow_skip_of_written cfg fs g r hnc hfs'
      have hrest : georeference_images cfg rest g = ([], g) :=
        ih (processRow cfg fs r).2 g hsub'
      unfold georeference_images
      simp [hrow, hrest]

lemma selectLongest_eq_none {α : Type} (l : List (List α)) :
    selectLongest l = none ↔ l = [] := by
  cases l <;> simp [selectLongest]

lemma selectLongest_spec {α : Type} (l : List (List α)) (pts : List α)
    (h : selectLongest l = some pts) :
    pts ∈ l ∧ ∀ d ∈ l, d.length ≤ pts.length := by
  cases l with
  | nil => exact absurd h (by simp [selectLongest])
  | cons c cs =>
      simp only [selectLongest, Option.some_inj] at h
      subst h
      obtain ⟨hmem, hge, hall⟩ := selectLongest_mem_and_max c cs
      refine ⟨hmem, ?_⟩
      intro d hd
      rcases List.mem_cons.mp hd with h | h
      · exact h ▸ hge
      · exact hall d h

lemma requiredKeys_some_iff (r : ImageRow)
    (v : String × PyFloat × PyFloat × PyFloat × PyFloat × PyFloat × PyFloat × PyFloat) :
    requiredKeys r = some v ↔
      r.filename = some v.1 ∧ r.ATT_Pitch = some v.2.1 ∧ r.ATT_Roll = some v.2.2.1
      ∧ r.ATT_Yaw = some v.2.2.2.1 ∧ r.GPS_Longitude = some v.2.2.2.2.1
      ∧ r.GPS_Latitude = some v.2.2.2.2.2.1 ∧ r.droneTime_MS = some v.2.2.2.2.2.2.1
      ∧ r.GPS_Altitude = some v.2.2.2.2.2.2.2 := by
  obtain ⟨vfn, vp, vro, vy, vlo, vla, vt, val⟩ := v
  constructor
  · intro h
    simp only [requiredKeys, Option.bind_eq_some, Option.map_eq_some'] at h
    obtain ⟨fn, hfn, p, hp, ro, hro, y, hy, lo, hlo, la, hla, t, ht, al, hal, heq⟩ := h
    cases heq
    exact ⟨hfn, hp, hro, hy, hlo, hla, ht, hal⟩
  · rintro ⟨h1, h2, h3, h4, h5, h6, h7, h8⟩
    simp [requiredKeys, h1, h2, h3, h4, h5, h6, h7, h8]

/-- C1: For every input, the attitude composition of `do_georeference` returns
`totalPitch = mountPitchOffset + cos(mountYawOffset)·platformPitch − sin(mountYawOffset)·platformRoll`,
`totalRoll = sin(mountYawOffset)·platformPitch + cos(mountYawOffset)·platformRoll`
(trigonometric arguments in radians, the degree-valued mount yaw converted), and
`totalYaw = (platformYaw + mountYawOffset) mod 360`; in particular with
`mountYawOffset = 0` it returns `totalPitch = mountPitchOffset + platformPitch`,
`totalRoll = platformRoll` and `totalYaw = platformYaw mod 360`. -/
theorem attitude_composition_formula
    (platformRoll platformPitch platformYaw mountPitchOffset mountYawOffset : ℝ) :
    (composeAttitude platformRoll platformPitch platformYaw mountPitchOffset
        mountYawOffset).totalPitch
      = mountPitchOffset + Real.cos (deg2rad mountYawOffset) * platformPitch
        - Real.sin (deg2rad mountYawOffset) * platformRoll
    ∧ (composeAttitude platformRoll platformPitch platformYaw mountPitchOffset
        mountYawOffset).totalRoll
      = Real.sin (deg2rad mountYawOffset) * platformPitch
        + Real.cos (deg2rad mountYawOffset) * platformRoll
    ∧ (composeAttitude platformRoll platformPitch platformYaw mountPitchOffset
        mountYawOffset).totalYaw
      = pyMod (platformYaw + mountYawOffset) 360
    ∧ (composeAttitude platformRoll platformPitch platformYaw mountPitchOffset 0).totalPitch
      = mountPitchOffset + platformPitch
    ∧ (composeAttitude platformRoll platformPitch platformYaw mountPitchOffset 0).totalRoll
      = platformRoll
    ∧ (composeAttitude platformRoll platformPitch platformYaw mountPitchOffset 0).totalYaw
      = pyMod platformYaw 360 := by
  unfold composeAttitude deg2rad
  refine ⟨rfl, rfl, rfl, ?_, ?_, ?_⟩ <;> simp

/-- C3 (behaviour at the failing input): with altitude 100 m, zero platform
attitude, `cameraYaw = 0` and `cameraPitch = 89.9999` (total pointing angle
of the single pixel within 1e-4 degrees of 90°), the per-pixel projection of
`do_georeference` silently propagates the near-infinite ground distance
`100·tan(radians(89.9999)) > 10⁶` m into the output raster, producing a
latitude beyond 180°; no warning is raised and no pixel is excluded or
clamped. -/
theorem degenerate_projection_unflagged :
    (10 : ℝ)^6 < 100 * Real.tan (deg2rad 89.9999)
    ∧ 180 < (do_georeference 0 0 100 0 0 0 89.9999 0 1 1 82 1).lats 0 0 := by
  have htan := tan_8999999_lower_bound
  constructor
  · nlinarith
  · have hcompose : composeAttitude 0 0 0 89.9999 0 =
        ⟨(89.9999 : ℝ), 0, 0⟩ := by
      unfold composeAttitude deg2rad pyMod
      simp
    show (180 : ℝ) < _
    unfold do_georeference
    rw [hcompose]
    unfold pixelAngle rotate_coordinate lonlat_add_metres deg2rad
    norm_num [Real.tan_zero]
    have he : (899999 / 10000 : ℝ) * (Real.pi / 180) = deg2rad 89.9999 := by
      unfold deg2rad; norm_num
    rw [he]
    unfold LAT_TO_M
    rw [lt_div_iff (by norm_num : (0:ℝ) < 111132.92)]
    nlinarith [tan_8999999_lower_bound]

/-- C2: For every (east, north) offset pair of magnitude under 5 km and every
origin latitude of magnitude at most 60°, the local-tangent-plane conversion
of metre offsets to longitude/latitude (factors `111132.92` for latitude,
`111319.9·cos(lat)` for longitude) followed by the inverse conversion back to
metre offsets — the `Kalman_GPS_*` and `x_m`/`y_m` steps of
`temporal_smooth_kalman` — recovers the original offsets exactly (hence
within 1e-6 degrees equivalent). -/
theorem metres_lonlat_roundtrip (e n olon olat lat : ℝ)
    (he : |e| < 5000) (hn : |n| < 5000) (hlat : |lat| ≤ 60) :
    lonLatToMetres (metresToLonLat e olon (lonToMetresFactor lat)) olon
        (lonToMetresFactor lat) = e
    ∧ lonLatToMetres (metresToLonLat n olat LAT_TO_M) olat LAT_TO_M = n := by
  have hpi := Real.pi_pos
  have hcos : 0 < Real.cos (deg2rad lat) := by
    apply Real.cos_pos_of_mem_Ioo
    have h1 : -60 ≤ lat := (abs_le.mp hlat).1
    have h2 : lat ≤ 60 := (abs_le.mp hlat).2
    constructor
    · show -(Real.pi / 2) < lat * (Real.pi / 180)
      nlinarith
    · show lat * (Real.pi / 180) < Real.pi / 2
      nlinarith
  have hf : lonToMetresFactor lat ≠ 0 := by
    unfold lonToMetresFactor LON_TO_M
    positivity
  have hlatm : LAT_TO_M ≠ 0 := by unfold LAT_TO_M; norm_num
  constructor
  · unfold lonLatToMetres metresToLonLat
    field_simp
    ring
  · unfold lonLatToMetres metresToLonLat
    field_simp
    ring

/-- Witness for C2 at `e = 1000`, `n = 2000`, origin `(10, 50)`, `lat = 45`. -/
theorem metres_lonlat_roundtrip_witness :
    lonLatToMetres (metresToLonLat 1000 10 (lonToMetresFactor 45)) 10
        (lonToMetresFactor 45) = 1000
    ∧ lonLatToMetres (metresToLonLat 2000 50 LAT_TO_M) 50 LAT_TO_M = 2000 :=
  metres_lonlat_roundtrip 1000 2000 10 50 45 (by rw [abs_lt]; norm_num)
    (by rw [abs_lt]; norm_num) (by rw [abs_le]; norm_num)

/-- C10: For every non-empty trajectory, the first output row of
`temporal_smooth_kalman` has `dt = 0`, smoothed position exactly equal to the
first raw GPS measurement (the local plane is anchored at the first sample),
and an undefined (`NaN`, modelled `none`) `Speed_m_s`; the predict/update
recurrence, seeded with zero initial velocity, is applied only from the
second sample onward. -/
theorem kalman_first_row (r : TrajRow) (rs : List TrajRow) :
    temporal_smooth_kalman (r :: rs)
      = some ({ GPS_Longitude := r.GPS_Longitude, GPS_Latitude := r.GPS_Latitude,
                dt := 0, Speed_m_s := none } ::
          List.zipWith
            (fun (p : ℝ × ℝ × ℝ) (dt : ℝ) =>
              ({ GPS_Longitude := metresToLonLat p.1 r.GPS_Longitude
                    (lonToMetresFactor (kalmanMeanLat (r :: rs)))
                 GPS_Latitude := metresToLonLat p.2.1 r.GPS_Latitude LAT_TO_M
                 dt := dt, Speed_m_s := some p.2.2 } : SmoothedRow))
            (kalmanFold (kalmanSeed r rs) (kalmanTriples r rs))
            (diffFrom (r.droneTime_MS / 1000)
              (rs.map fun q => q.droneTime_MS / 1000)))
    ∧ (kalmanSeed r rs).x 2 = 0 ∧ (kalmanSeed r rs).x 3 = 0 := by
  refine ⟨?_, by simp [kalmanSeed], by simp [kalmanSeed]⟩
  show some (kalmanBody r rs) = _
  unfold kalmanBody
  simp only [dtsOf, List.map_cons, List.zipWith_cons_cons, List.zipWith_map_left,
    Option.some_inj]
  congr 1
  simp [metresToLonLat, lonLatToMetres]

/-- C4 (behaviour at the failing input): for the concrete two-sample
trajectory whose timestamps decrease (1000 ms then 0 ms),
`temporal_smooth_kalman` raises nothing and silently produces a full
two-row smoothed output — it performs no monotonicity check. -/
theorem kalman_accepts_nonmonotonic_time :
    ¬ List.Chain' (· ≤ ·)
        (([⟨1000, 0, 0⟩, ⟨0, 1/1000, 0⟩] : List TrajRow).map TrajRow.droneTime_MS)
    ∧ ∃ out, temporal_smooth_kalman [⟨1000, 0, 0⟩, ⟨0, 1/1000, 0⟩] = some out
        ∧ out.length = 2 := by
  constructor
  · simp only [List.map_cons, List.map_nil, List.chain'_cons, List.chain'_singleton,
      and_true]
    norm_num
  · exact ⟨kalmanBody _ _, rfl, by simp [kalmanBody_length]⟩

/-- C6: `calc_yaw_from_ellipse` returns `none` exactly when the image cannot
be read, when the maximum grayscale intensity is below the absolute floor of
100, or when no contours are found; otherwise it returns
`yaw = solarAzimuth - ellipseAngle` for the ellipse fitted to the contour
with the greatest number of boundary points; and a `none` result is soft:
the caller keeps the telemetry-derived yaw. -/
theorem glitter_yaw_soft_failure {Img GImg Pt : Type}
    (env : CVEnv Img GImg Pt) (img : Option Img) (azimuth threshold : ℝ)
    (metadataYaw : PyFloat) :
    (calc_yaw_from_ellipse env img azimuth threshold = none
      ↔ img = none
        ∨ (∃ i, img = some i ∧ env.maxVal (env.cvtColorGray i) < 100)
        ∨ (∃ i, img = some i ∧ ¬ env.maxVal (env.cvtColorGray i) < 100
            ∧ env.maskEdgeContours (env.gaussianBlur (env.cvtColorGray i))
                (threshold * (env.maxVal (env.cvtColorGray i) : ℝ)) = []))
    ∧ (∀ i pts, img = some i → ¬ env.maxVal (env.cvtColorGray i) < 100 →
        selectLongest (env.maskEdgeContours (env.gaussianBlur (env.cvtColorGray i))
            (threshold * (env.maxVal (env.cvtColorGray i) : ℝ))) = some pts →
          calc_yaw_from_ellipse env img azimuth threshold
            = some (azimuth - env.fitEllipseAngle pts)
          ∧ pts ∈ env.maskEdgeContours (env.gaussianBlur (env.cvtColorGray i))
              (threshold * (env.maxVal (env.cvtColorGray i) : ℝ))
          ∧ ∀ d ∈ env.maskEdgeContours (env.gaussianBlur (env.cvtColorGray i))
              (threshold * (env.maxVal (env.cvtColorGray i) : ℝ)), d.length ≤ pts.length)
    ∧ (calc_yaw_from_ellipse env img azimuth threshold = none →
        callerYaw (calc_yaw_from_ellipse env img azimuth threshold) metadataYaw
          = metadataYaw) := by
  refine ⟨?_, ?_, ?_⟩
  · cases img with
    | none => simp [calc_yaw_from_ellipse]
    | some i =>
        by_cases h100 : env.maxVal (env.cvtColorGray i) < 100
        · constructor
          · intro _
            exact Or.inr (Or.inl ⟨i, rfl, h100⟩)
          · intro _
            simp [calc_yaw_from_ellipse, h100]
        · cases hsel : selectLongest (env.maskEdgeContours
              (env.gaussianBlur (env.cvtColorGray i))
              (threshold * (env.maxVal (env.cvtColorGray i) : ℝ))) with
          | none =>
              have hempty := (selectLongest_eq_none _).mp hsel
              constructor
              · intro _
                exact Or.inr (Or.inr ⟨i, rfl, h100, hempty⟩)
              · intro _
                simp [calc_yaw_from_ellipse, h100, hsel]
          | some pts =>
              constructor
              · intro hnone
                simp [calc_yaw_from_ellipse, h100, hsel] at hnone
              · rintro (h | ⟨i2, hi2, h2⟩ | ⟨i2, hi2, h2, hempty⟩)
                · exact Option.noConfusion h
                · cases Option.some_inj.mp hi2
                  exact absurd h2 h100
                · cases Option.some_inj.mp hi2
                  rw [hempty] at hsel
                  simp [selectLongest] at hsel
  · intro i pts hi h100 hsel
    subst hi
    obtain ⟨hmem, hmax⟩ := selectLongest_spec _ pts hsel
    refine ⟨?_, hmem, hmax⟩
    simp [calc_yaw_from_ellipse, h100, hsel]
  · intro hnone
    rw [hnone]
    rfl

/-- Witness for C6: with a concrete trivial CV environment, a readable bright
image yields `azimuth - ellipseAngle` of the longest contour, an unreadable
image yields `none`, and the caller's fallback keeps the telemetry yaw. -/
theorem glitter_yaw_soft_failure_witness :
    calc_yaw_from_ellipse unitCV (some ()) 90 (1/2)
      = some (90 - unitCV.fitEllipseAngle [(), ()])
    ∧ calc_yaw_from_ellipse unitCV none 90 (1/2) = none
    ∧ callerYaw (calc_yaw_from_ellipse unitCV none 90 (1/2)) (PyFloat.fin 7)
      = PyFloat.fin 7 := by
  refine ⟨?_, ?_, ?_⟩
  · exact ((glitter_yaw_soft_failure unitCV (some ()) 90 (1/2) (PyFloat.fin 7)).2.1
      () [(), ()] rfl (by norm_num [unitCV]) (by simp [unitCV, selectLongest])).1
  · exact (glitter_yaw_soft_failure unitCV none 90 (1/2) (PyFloat.fin 7)).1.mpr
      (Or.inl rfl)
  · exact (glitter_yaw_soft_failure unitCV none 90 (1/2) (PyFloat.fin 7)).2.2 rfl

/-- C9: A batch row whose target NetCDF output path already exists is skipped
entirely — no effects (no glitter attempt, no georeference computation, no
writes), the file set is unchanged — and the loop continues with the
remaining rows; consequently, with NetCDF output enabled, re-running a batch
over the same output directory produces no effects (and so overwrites
nothing). -/
theorem existing_output_skipped {Img GImg Pt : Type} (cfg : BatchConfig Img GImg Pt)
    (fs : List String) (r : ImageRow) (fn : String) (rest : List ImageRow)
    (hfn : r.filename = some fn) (hex : ncPath cfg fn ∈ fs) :
    processRow cfg fs r = ([], fs)
    ∧ georeference_images cfg (r :: rest) fs = georeference_images cfg rest fs
    ∧ (∀ rows fs0, cfg.hasNetCDF = true →
        (georeference_images cfg rows (georeference_images cfg rows fs0).2).1 = []) := by
  have h1 : processRow cfg fs r = ([], fs) := by
    unfold processRow
    cases hk : requiredKeys r with
    | none => rfl
    | some v =>
        obtain ⟨vfn, vp, vro, vy, vlo, vla, vt, val⟩ := v
        have hv := (requiredKeys_some_iff r _).mp hk
        have hveq : vfn = fn := by
          have h := hv.1
          rw [hfn] at h
          exact (Option.some_inj.mp h).symm
        subst hveq
        simp [hex]
  refine ⟨h1, ?_, ?_⟩
  · have hstep : georeference_images cfg (r :: rest) fs
        = ((processRow cfg fs r).1
            ++ (georeference_images cfg rest (processRow cfg fs r).2).1,
           (georeference_images cfg rest (processRow cfg fs r).2).2) := rfl
    rw [hstep, h1]
    simp
  · intro rows fs0 hnc
    have := georeference_images_idempotent cfg rows fs0
      (georeference_images cfg rows fs0).2 hnc (List.Subset.refl _)
    rw [this]

/-- Witness for C9 at a concrete configuration and row whose NetCDF output
path is already present. -/
theorem existing_output_skipped_witness :
    processRow unitBatchConfig [ncPath unitBatchConfig "a.jpg"] sampleRow
      = ([], [ncPath unitBatchConfig "a.jpg"])
    ∧ georeference_images unitBatchConfig [sampleRow] [ncPath unitBatchConfig "a.jpg"]
      = georeference_images unitBatchConfig [] [ncPath unitBatchConfig "a.jpg"]
    ∧ (georeference_images unitBatchConfig [sampleRow]
        (georeference_images unitBatchConfig [sampleRow] []).2).1 = [] := by
  obtain ⟨h1, h2, h3⟩ := existing_output_skipped unitBatchConfig
    [ncPath unitBatchConfig "a.jpg"] sampleRow "a.jpg" []
    (by simp [sampleRow]) (List.mem_singleton.mpr rfl)
  exact ⟨h1, h2, h3 [sampleRow] [] rfl⟩

/-- C5 counterexample: a row whose required attitude field `ATT_Pitch` is
`NaN` (not finite) but whose altitude is finite is NOT skipped: the batch
loop performs the georeference computation and writes the NetCDF output for
it, so the claim that a non-finite required attitude field yields no output
for that image is false on the code. -/
theorem nan_attitude_row_produces_output :
    PyFloat.nan.isFinite = false
    ∧ (PyFloat.fin 100).isFinite = true
    ∧ nanPitchRow.ATT_Pitch = some PyFloat.nan
    ∧ (georeference_images unitBatchConfig [nanPitchRow] []).1
      = [BatchEffect.computedGeoreference "b.jpg" (PyFloat.fin 0),
         BatchEffect.wroteNetCDF (ncPath unitBatchConfig "b.jpg")] := by
  refine ⟨rfl, rfl, rfl, ?_⟩
  rfl

/-- C5 (amended): a row whose altitude is non-finite produces no output and
no effects, and the batch loop continues with the remaining rows unchanged —
the non-finite-field skip applies to the altitude only. -/
theorem nonfinite_altitude_skipped {Img GImg Pt : Type} (cfg : BatchConfig Img GImg Pt)
    (fs : List String) (r : ImageRow) (alt : PyFloat) (rest : List ImageRow)
    (halt : r.GPS_Altitude = some alt) (hfin : alt.isFinite = false) :
    processRow cfg fs r = ([], fs)
    ∧ georeference_images cfg (r :: rest) fs = georeference_images cfg rest fs := by
  have h1 : processRow cfg fs r = ([], fs) := by
    unfold processRow
    cases hk : requiredKeys r with
    | none => rfl
    | some v =>
        obtain ⟨vfn, vp, vro, vy, vlo, vla, vt, val⟩ := v
        have hv := (requiredKeys_some_iff r _).mp hk
        have hveq : val = alt := by
          have h := hv.2.2.2.2.2.2.2
          rw [halt] at h
          exact (Option.some_inj.mp h).symm
        subst hveq
        by_cases hmem : ncPath cfg vfn ∈ fs
        · simp [hmem]
        · simp [hmem, hfin]
  refine ⟨h1, ?_⟩
  have hstep : georeference_images cfg (r :: rest) fs
      = ((processRow cfg fs r).1
          ++ (georeference_images cfg rest (processRow cfg fs r).2).1,
         (georeference_images cfg rest (processRow cfg fs r).2).2) := rfl
  rw [hstep, h1]
  simp

/-- Witness for the amended C5 at a concrete row with `NaN` altitude. -/
theorem nonfinite_altitude_skipped_witness :
    processRow unitBatchConfig [] nanAltRow = ([], [])
    ∧ georeference_images unitBatchConfig [nanAltRow, sampleRow] []
      = georeference_images unitBatchConfig [sampleRow] [] :=
  nonfinite_altitude_skipped unitBatchConfig [] nanAltRow PyFloat.nan [sampleRow]
    (by simp [nanAltRow]) rfl

/-- C8: The yaw wrap `y ↦ y mod 360` used in the attitude composition yields a
value in `[0, 360)` for every real input, is idempotent, and composing with
`platformYaw = -90`, `mountYawOffset = 450` yields `totalYaw = 0`. -/
theorem yaw_wrap_range_idem_concrete :
    (∀ y : ℝ, 0 ≤ pyMod y 360 ∧ pyMod y 360 < 360)
    ∧ (∀ y : ℝ, pyMod (pyMod y 360) 360 = pyMod y 360)
    ∧ (∀ roll pitch poff : ℝ,
        (composeAttitude roll pitch (-90) poff 450).totalYaw = 0) := by
  refine ⟨fun y => ⟨pyMod_nonneg y 360 (by norm_num), pyMod_lt y 360 (by norm_num)⟩,
    fun y => pyMod_idem y 360 (by norm_num), fun roll pitch poff => ?_⟩
  show pyMod ((-90 : ℝ) + 450) 360 = 0
  have : ((-90 : ℝ) + 450) = 360 := by norm_num
  rw [this]
  unfold pyMod
  norm_num

end DroneData
